import Mathlib

/-!
Shallow embedding of `analysis/analyzer.go` from the `eosc` repository
(package `analysis`): a transaction analyzer that unpacks an EOS packed
transaction and renders a banner-delimited, human-readable report into an
append-only buffer.

Modelling conventions:
* Byte slices (`[]byte`) are `List Nat` (each entry one byte value).
* The output buffer (`bytes.Buffer`) is the ordered list of string segments
  appended by the `fmt.Fprintf` / `fmt.Fprintln` / `spew.Fdump` calls; the
  final report text is the concatenation of the segments.
* Calls into external libraries (`crypto/sha256`, `spew.Fdump`,
  `eos.UnmarshalBinary` into an `eos.ABI`, `json.MarshalIndent`,
  `PackedTransaction.ID`, `PackedTransaction.Unpack`, `fmt` quoting of the
  signature slice, and `time.Now`-derived renderings) are fields of an
  `Ext` record: the analyzer is proved correct for every choice of those
  functions.  The `eos.ABI` document type itself is a type parameter `ABI`.
* Each Go `fmt` format string is translated call-site by call-site into the
  concatenation it denotes (`%s`, `%d`, `%x`, `%v`, `%q`).
* Errors (`error` values) are `Option String` (`none` = `nil`), and
  `Unpack`'s fallible result is `Except String SignedTransaction`.
-/

namespace Analysis

/-- `eos.PermissionLevel`: actor plus permission name. -/
structure PermissionLevel where
  actor : String
  permission : String
deriving DecidableEq, Repr

/-- The decoded payload sitting in `act.ActionData.Data`, as discriminated by
the type switch in `analyzeAction`: either `*system.SetCode`,
`*system.SetABI`, or anything else (left opaque by the switch's `default`
arm; `raw` carries the payload bytes). -/
inductive ActionPayload where
  | setCode (account : String) (vmType vmVersion : Nat) (code : List Nat)
  | setABI (account : String) (abi : List Nat)
  | other (raw : List Nat)
deriving DecidableEq, Repr

/-- `eos.Action`: account, name, authorization list and decoded payload. -/
structure Action where
  account : String
  name : String
  authorization : List PermissionLevel
  payload : ActionPayload
deriving DecidableEq, Repr

/-- `eos.Transaction` (the fields the analyzer reads).  `expiration` is the
`%s` rendering of `tx.Expiration.Time` (an external `time.Time`). -/
structure Transaction where
  expiration : String
  refBlockNum : Nat
  refBlockPref : Nat
  maxNetUsageWords : Nat
  maxCPUUsageMS : Nat
  delaySec : Nat
  contextFreeActions : List Action
  actions : List Action
deriving DecidableEq, Repr

/-- `eos.SignedTransaction`: a transaction plus signatures (rendered strings)
and context-free data blobs. -/
structure SignedTransaction where
  transaction : Transaction
  signatures : List String
  contextFreeData : List (List Nat)
deriving DecidableEq, Repr

/-- `eos.PackedTransaction` (the fields the analyzer reads). -/
structure PackedTransaction where
  signatures : List String
  packedContextFreeData : List Nat
  packedTransaction : List Nat
deriving DecidableEq, Repr

/-- The `Analyzer` struct: verbose flag and output buffer (as the ordered
list of appended segments). -/
structure Analyzer where
  verbose : Bool
  writer : List String
deriving DecidableEq, Repr

/-- External collaborators of the analyzer, one field per library call.
`ABI` is the (external) `eos.ABI` document type.  `unmarshalABI` returns the
value left in the target variable together with the optional error, matching
`eos.UnmarshalBinary(obj.ABI, &unpackedABI)`; `marshalIndent` likewise
returns the (string of the) produced JSON bytes and the optional error.
`nowStr` renders `time.Now().UTC()` and `subStr` renders
`tx.Expiration.Time.Sub(now)` for the single `time.Now` call of the pass. -/
structure Ext (ABI : Type) where
  sha256 : List Nat → List Nat
  dump : List Nat → String
  unmarshalABI : List Nat → ABI × Option String
  marshalIndent : ABI → String × Option String
  trxID : PackedTransaction → String
  quoteSigs : List String → String
  unpack : PackedTransaction → Except String SignedTransaction
  nowStr : String
  subStr : String

/-- `fmt` rendering of a `bool` under `%v`. -/
def goBool (b : Bool) : String := cond b "true" "false"

/-- `fmt` rendering of an unsigned integer under `%x` (lowercase hex). -/
def natToHex (n : Nat) : String := String.mk (Nat.toDigits 16 n)

/-- `hex.EncodeToString`: two lowercase hex digits per byte. -/
def hexEncode (bs : List Nat) : String :=
  String.join (bs.map (fun b => String.mk [Nat.digitChar (b / 16 % 16), Nat.digitChar (b % 16)]))

/-- `bytes.HasPrefix`-style check used to define `bytes.Contains`. -/
def hasPrefB : List Nat → List Nat → Bool
  | _, [] => true
  | [], _ :: _ => false
  | x :: xs, y :: ys => x == y && hasPrefB xs ys

/-- `bytes.Contains(s, sub)`: does `sub` occur contiguously inside `s`? -/
def bytesContains (s sub : List Nat) : Bool :=
  match s with
  | [] => sub.isEmpty
  | _ :: rest => hasPrefB s sub || bytesContains rest sub

/-- The bytes of the string literal `"SYS"`. -/
def sysBytes : List Nat := [83, 89, 83]

/-- The bytes of the string literal `"EOS"`. -/
def eosBytes : List Nat := [69, 79, 83]

/-- A line of 69 dashes, as printed between banners. -/
def dashes (n : Nat) : String := String.mk (List.replicate n '-')

def dashLine : String := dashes 69

def packedBanner : String := dashes 25 ++ " PACKED TRANSACTION " ++ dashes 24

def signedBanner : String := dashes 23 ++ " SIGNED TRANSACTION " ++ dashes 26

def headerBanner : String := dashes 23 ++ " TRANSACTION HEADER " ++ dashes 26

def actionsBanner : String := dashes 30 ++ " ACTIONS " ++ dashes 30

/-- `Pln()`: `fmt.Fprintln` with no operands appends a newline. -/
def Pln0 (a : Analyzer) : Analyzer :=
  { a with writer := a.writer ++ ["\n"] }

/-- `Pln(s)`: `fmt.Fprintln` with one string operand. -/
def Pln (a : Analyzer) (s : String) : Analyzer :=
  { a with writer := a.writer ++ [s ++ "\n"] }

/-- `Pf`: `fmt.Fprintf`; the call sites pass the already-formatted segment. -/
def Pf (a : Analyzer) (s : String) : Analyzer :=
  { a with writer := a.writer ++ [s] }

/-- `VerbPln`: `Pln`, only in verbose mode. -/
def VerbPln (a : Analyzer) (s : String) : Analyzer :=
  if a.verbose then Pln a s else a

/-- `VerbPf`: `Pf`, only in verbose mode. -/
def VerbPf (a : Analyzer) (s : String) : Analyzer :=
  if a.verbose then Pf a s else a

/-- `VerbDump`: `spew.Fdump` of one byte slice, only in verbose mode. -/
def VerbDump {ABI : Type} (ext : Ext ABI) (a : Analyzer) (b : List Nat) : Analyzer :=
  if a.verbose then Pf a (ext.dump b) else a

/-- `analyzeAction`: one action's entry in the report.  Returns the analyzer,
the post-call contents of the pointed-to action (the body never writes
through `act`, so it is returned unchanged), and the Go `error` result. -/
def analyzeAction {ABI : Type} (ext : Ext ABI) (a : Analyzer) (idx : Nat) (act : Action) :
    Analyzer × Action × Option String :=
  let auths := act.authorization.map (fun auth => auth.actor ++ "@" ++ auth.permission)
  let a := Pf a (toString (idx + 1) ++ ". Action " ++ act.account ++ "::" ++ act.name ++
    ", authorized by: " ++ String.intercalate ", " auths ++ "\n")
  match act.payload with
  | .setCode acct vmT vmV code =>
    let a := Pf a ("Set code for account: " ++ acct ++ "\n")
    let a := Pf a ("VM type/version: " ++ toString vmT ++ "/" ++ toString vmV ++ "\n")
    let a := Pf a ("Code's SHA256: " ++ hexEncode (ext.sha256 code) ++ "\n")
    let a := Pf a ("Contains the string 'SYS': " ++ goBool (bytesContains code sysBytes) ++ "\n")
    let a := Pf a ("Contains the string 'EOS': " ++ goBool (bytesContains code eosBytes) ++ "\n")
    let a := VerbDump ext a code
    (Pln0 (Pln0 a), act, none)
  | .setABI acct abiBytes =>
    let a := Pf a ("Set ABI for account: " ++ acct ++ "\n")
    let u := ext.unmarshalABI abiBytes
    let a := match u.2 with
      | some e => Pf a ("Couldn't unpack the ABI therein: " ++ e ++ "\n")
      | none => a
    let j := ext.marshalIndent u.1
    let a := match j.2 with
      | some e => Pf a ("Couldn't serialize ABI into JSON: " ++ e ++ "\n")
      | none => a
    let a := VerbPln a "JSON representation of the ABI:"
    let a := VerbPf a (j.1 ++ "\n")
    (Pln0 (Pln0 a), act, none)
  | .other _ => (a, act, none)

/-- The `for idx, act := range` loops of `AnalyzeTransaction`: analyze each
action in order, returning early if one returns a non-nil error. -/
def analyzeActions {ABI : Type} (ext : Ext ABI) (a : Analyzer) (idx : Nat) :
    List Action → Analyzer × Option String
  | [] => (a, none)
  | act :: rest =>
    let r := analyzeAction ext a idx act
    match r.2.2 with
    | some e => (r.1, some e)
    | none => analyzeActions ext r.1 (idx + 1) rest

/-- `AnalyzeTransaction`: header section, actions section, both action loops. -/
def AnalyzeTransaction {ABI : Type} (ext : Ext ABI) (a : Analyzer) (tx : Transaction) :
    Analyzer × Option String :=
  let a := Pln0 a
  let a := Pln a dashLine
  let a := Pln a headerBanner
  let a := Pln a dashLine
  let a := Pln0 a
  let a := Pf a ("Expiration: " ++ tx.expiration ++ " (in " ++ ext.subStr ++
    ", analysis time: " ++ ext.nowStr ++ ")\n")
  let a := Pf a ("Expiration: " ++ tx.expiration ++ "\n")
  let a := Pf a ("Reference block number: " ++ toString tx.refBlockNum ++ "\n")
  let a := Pf a ("Reference block prefix: " ++ natToHex tx.refBlockPref ++ "\n")
  let a := Pf a ("Maximum net usage words (of 8 bytes, 0 = unlimited): " ++
    toString tx.maxNetUsageWords ++ "\n")
  let a := Pf a ("Maximum CPU usage in milliseconds (0 = unlimited): " ++
    toString tx.maxCPUUsageMS ++ "\n")
  let a := Pf a ("Number of seconds to delay transaction (cancellable during that time): " ++
    toString tx.delaySec ++ "\n")
  let a := Pln0 a
  let a := Pln a dashLine
  let a := Pln a actionsBanner
  let a := Pln a dashLine
  let a := Pln0 a
  let a := Pf a ("Context-free actions: " ++ toString tx.contextFreeActions.length ++ "\n")
  let r := analyzeActions ext a 0 tx.contextFreeActions
  match r.2 with
  | some e => (r.1, some e)
  | none =>
    let a := Pln0 r.1
    let a := Pf a ("Actions: " ++ toString tx.actions.length ++ "\n")
    let r2 := analyzeActions ext a 0 tx.actions
    match r2.2 with
    | some e => (r2.1, some e)
    | none => (r2.1, none)

/-- `AnalyzeSignedTransaction`: delegates to `AnalyzeTransaction`. -/
def AnalyzeSignedTransaction {ABI : Type} (ext : Ext ABI) (a : Analyzer)
    (sTx : SignedTransaction) : Analyzer × Option String :=
  AnalyzeTransaction ext a sTx.transaction

/-- The `for idx, blob := range sTx.ContextFreeData` loop of `AnalyzePacked`. -/
def analyzeBlobs {ABI : Type} (ext : Ext ABI) (a : Analyzer) (idx : Nat) :
    List (List Nat) → Analyzer
  | [] => a
  | blob :: rest =>
    let a := Pf a (toString (idx + 1) ++ ". Blob length: " ++ toString blob.length ++ "\n")
    let a := VerbDump ext a blob
    analyzeBlobs ext a (idx + 1) rest

/-- `AnalyzePacked`: packed section, signed banner, unpack (the one fallible
step), blob summary, then the transaction report.  The source passes
`trx.PackedContextFreeData` to both `VerbDump` calls (analyzer.go lines 42
and 44), so that is what this definition does. -/
def AnalyzePacked {ABI : Type} (ext : Ext ABI) (a : Analyzer) (trx : PackedTransaction) :
    Analyzer × Option String :=
  let a := Pln0 a
  let a := Pln a dashLine
  let a := Pln a packedBanner
  let a := Pln a dashLine
  let a := Pln0 a
  let a := Pf a ("Transaction ID: " ++ ext.trxID trx ++ "\n")
  let a := Pf a ("Signatures: " ++ ext.quoteSigs trx.signatures ++ "\n")
  let a := Pf a ("Packed context free data length: " ++
    toString trx.packedContextFreeData.length ++ "\n")
  let a := VerbDump ext a trx.packedContextFreeData
  let a := Pf a ("Packed transaction data length: " ++
    toString trx.packedTransaction.length ++ "\n")
  let a := VerbDump ext a trx.packedContextFreeData
  let a := Pln0 a
  let a := Pln a dashLine
  let a := Pln a signedBanner
  let a := Pln a dashLine
  let a := Pln0 a
  match ext.unpack trx with
  | .error e => (a, some e)
  | .ok sTx =>
    let a := Pf a ("Number of context-free data blobs (on Transaction): " ++
      toString sTx.contextFreeData.length ++ "\n")
    let a := analyzeBlobs ext a 0 sTx.contextFreeData
    AnalyzeSignedTransaction ext a sTx

/-! ### Output decomposition

Spec-shaped descriptions of what each part of the pass appends to the
buffer, and lemmas proving the analyzer equal to them.  These are the bridge
between the translated code above and the specification's claims about
section order and per-action entries. -/

/-- The report line introducing action number `idx + 1`. -/
def headerLine (idx : Nat) (act : Action) : String :=
  toString (idx + 1) ++ ". Action " ++ act.account ++ "::" ++ act.name ++
    ", authorized by: " ++
    String.intercalate ", "
      (act.authorization.map (fun auth => auth.actor ++ "@" ++ auth.permission)) ++ "\n"

/-- The sub-report segments for one action's payload. -/
def payloadOut {ABI : Type} (ext : Ext ABI) (v : Bool) : ActionPayload → List String
  | .setCode acct vmT vmV code =>
    ["Set code for account: " ++ acct ++ "\n",
     "VM type/version: " ++ toString vmT ++ "/" ++ toString vmV ++ "\n",
     "Code's SHA256: " ++ hexEncode (ext.sha256 code) ++ "\n",
     "Contains the string 'SYS': " ++ goBool (bytesContains code sysBytes) ++ "\n",
     "Contains the string 'EOS': " ++ goBool (bytesContains code eosBytes) ++ "\n"] ++
    (if v then [ext.dump code] else []) ++ ["\n", "\n"]
  | .setABI acct abiBytes =>
    ["Set ABI for account: " ++ acct ++ "\n"] ++
    (match (ext.unmarshalABI abiBytes).2 with
      | some e => ["Couldn't unpack the ABI therein: " ++ e ++ "\n"]
      | none => []) ++
    (match (ext.marshalIndent (ext.unmarshalABI abiBytes).1).2 with
      | some e => ["Couldn't serialize ABI into JSON: " ++ e ++ "\n"]
      | none => []) ++
    (if v then ["JSON representation of the ABI:" ++ "\n",
                (ext.marshalIndent (ext.unmarshalABI abiBytes).1).1 ++ "\n"] else []) ++
    ["\n", "\n"]
  | .other _ => []

/-- The full entry one action contributes to the report. -/
def actionOut {ABI : Type} (ext : Ext ABI) (v : Bool) (idx : Nat) (act : Action) : List String :=
  headerLine idx act :: payloadOut ext v act.payload

/-- The entries of a list of actions, numbered from `idx + 1` upward. -/
def entriesOut {ABI : Type} (ext : Ext ABI) (v : Bool) : Nat → List Action → List String
  | _, [] => []
  | idx, act :: rest => actionOut ext v idx act ++ entriesOut ext v (idx + 1) rest

/-- The context-free-data blob summary lines, numbered from `idx + 1`. -/
def blobsOut {ABI : Type} (ext : Ext ABI) (v : Bool) : Nat → List (List Nat) → List String
  | _, [] => []
  | idx, blob :: rest =>
    ([toString (idx + 1) ++ ". Blob length: " ++ toString blob.length ++ "\n"] ++
      (if v then [ext.dump blob] else [])) ++ blobsOut ext v (idx + 1) rest

/-- The TRANSACTION HEADER section. -/
def hdrSectionOut {ABI : Type} (ext : Ext ABI) (tx : Transaction) : List String :=
  ["\n", dashLine ++ "\n", headerBanner ++ "\n", dashLine ++ "\n", "\n",
   "Expiration: " ++ tx.expiration ++ " (in " ++ ext.subStr ++ ", analysis time: " ++
     ext.nowStr ++ ")\n",
   "Expiration: " ++ tx.expiration ++ "\n",
   "Reference block number: " ++ toString tx.refBlockNum ++ "\n",
   "Reference block prefix: " ++ natToHex tx.refBlockPref ++ "\n",
   "Maximum net usage words (of 8 bytes, 0 = unlimited): " ++
     toString tx.maxNetUsageWords ++ "\n",
   "Maximum CPU usage in milliseconds (0 = unlimited): " ++
     toString tx.maxCPUUsageMS ++ "\n",
   "Number of seconds to delay transaction (cancellable during that time): " ++
     toString tx.delaySec ++ "\n"]

/-- The ACTIONS section: banner, context-free entries first, then regular
entries, each list numbered from 1 in its original order. -/
def actionsSectionOut {ABI : Type} (ext : Ext ABI) (v : Bool) (tx : Transaction) : List String :=
  ["\n", dashLine ++ "\n", actionsBanner ++ "\n", dashLine ++ "\n", "\n",
   "Context-free actions: " ++ toString tx.contextFreeActions.length ++ "\n"] ++
  entriesOut ext v 0 tx.contextFreeActions ++
  ["\n", "Actions: " ++ toString tx.actions.length ++ "\n"] ++
  entriesOut ext v 0 tx.actions

/-- The PACKED TRANSACTION section.  Note that both verbose dumps are of
`trx.packedContextFreeData`, mirroring analyzer.go lines 42 and 44. -/
def packedSectionOut {ABI : Type} (ext : Ext ABI) (v : Bool) (trx : PackedTransaction) :
    List String :=
  ["\n", dashLine ++ "\n", packedBanner ++ "\n", dashLine ++ "\n", "\n",
   "Transaction ID: " ++ ext.trxID trx ++ "\n",
   "Signatures: " ++ ext.quoteSigs trx.signatures ++ "\n",
   "Packed context free data length: " ++
     toString trx.packedContextFreeData.length ++ "\n"] ++
  (if v then [ext.dump trx.packedContextFreeData] else []) ++
  ["Packed transaction data length: " ++ toString trx.packedTransaction.length ++ "\n"] ++
  (if v then [ext.dump trx.packedContextFreeData] else [])

/-- The SIGNED TRANSACTION banner, printed before the unpack attempt. -/
def signedBannerOut : List String :=
  ["\n", dashLine ++ "\n", signedBanner ++ "\n", dashLine ++ "\n", "\n"]

/-- The body of the SIGNED TRANSACTION section, printed after a successful
unpack. -/
def signedBodyOut {ABI : Type} (ext : Ext ABI) (v : Bool) (sTx : SignedTransaction) :
    List String :=
  ["Number of context-free data blobs (on Transaction): " ++
     toString sTx.contextFreeData.length ++ "\n"] ++
  blobsOut ext v 0 sTx.contextFreeData

theorem analyzeAction_eq {ABI : Type} (ext : Ext ABI) (a : Analyzer) (idx : Nat)
    (act : Action) :
    analyzeAction ext a idx act =
      ({ a with writer := a.writer ++ actionOut ext a.verbose idx act }, act, none) := by
  rcases act with ⟨acct, nm, auths, p⟩
  cases p with
  | setCode c t w code =>
    cases hv : a.verbose <;>
      simp [analyzeAction, actionOut, headerLine, payloadOut, Pf, Pln0, VerbDump, hv]
  | setABI c abiBytes =>
    cases hu : (ext.unmarshalABI abiBytes).2 <;>
      cases hj : (ext.marshalIndent (ext.unmarshalABI abiBytes).1).2 <;>
        cases hv : a.verbose <;>
          simp [analyzeAction, actionOut, headerLine, payloadOut, Pf, Pln, Pln0,
            VerbDump, VerbPln, VerbPf, hu, hj, hv]
  | other raw =>
    simp [analyzeAction, actionOut, headerLine, payloadOut, Pf]

theorem analyzeActions_eq {ABI : Type} (ext : Ext ABI) :
    ∀ (acts : List Action) (a : Analyzer) (idx : Nat),
      analyzeActions ext a idx acts =
        ({ a with writer := a.writer ++ entriesOut ext a.verbose idx acts }, none)
  | [], a, idx => by simp [analyzeActions, entriesOut]
  | act :: rest, a, idx => by
    simp only [analyzeActions, analyzeAction_eq]
    simp [analyzeActions_eq ext rest, entriesOut]

theorem analyzeBlobs_eq {ABI : Type} (ext : Ext ABI) :
    ∀ (blobs : List (List Nat)) (a : Analyzer) (idx : Nat),
      analyzeBlobs ext a idx blobs =
        { a with writer := a.writer ++ blobsOut ext a.verbose idx blobs }
  | [], a, idx => by simp [analyzeBlobs, blobsOut]
  | blob :: rest, a, idx => by
    cases hv : a.verbose <;>
      simp [analyzeBlobs, blobsOut, Pf, VerbDump, hv, analyzeBlobs_eq ext rest]

theorem AnalyzeTransaction_eq {ABI : Type} (ext : Ext ABI) (a : Analyzer) (tx : Transaction) :
    AnalyzeTransaction ext a tx =
      ({ a with writer := a.writer ++ hdrSectionOut ext tx ++
          actionsSectionOut ext a.verbose tx }, none) := by
  simp only [AnalyzeTransaction, Pf, Pln, Pln0, analyzeActions_eq]
  simp [hdrSectionOut, actionsSectionOut]

theorem AnalyzePacked_err {ABI : Type} (ext : Ext ABI) (a : Analyzer)
    (trx : PackedTransaction) (e : String) (h : ext.unpack trx = .error e) :
    AnalyzePacked ext a trx =
      ({ a with writer := a.writer ++ packedSectionOut ext a.verbose trx ++
          signedBannerOut }, some e) := by
  cases hv : a.verbose <;>
    simp [AnalyzePacked, Pf, Pln, Pln0, VerbDump, hv, h,
      packedSectionOut, signedBannerOut]

theorem AnalyzePacked_ok {ABI : Type} (ext : Ext ABI) (a : Analyzer)
    (trx : PackedTransaction) (sTx : SignedTransaction) (h : ext.unpack trx = .ok sTx) :
    AnalyzePacked ext a trx =
      ({ a with writer := a.writer ++ packedSectionOut ext a.verbose trx ++
          signedBannerOut ++ signedBodyOut ext a.verbose sTx ++
          hdrSectionOut ext sTx.transaction ++
          actionsSectionOut ext a.verbose sTx.transaction }, none) := by
  cases hv : a.verbose <;>
    simp [AnalyzePacked, AnalyzeSignedTransaction, Pf, Pln, Pln0, VerbDump, hv, h,
      analyzeBlobs_eq, AnalyzeTransaction_eq,
      packedSectionOut, signedBannerOut, signedBodyOut]

/-! ### `bytes.Contains` agrees with mathematical substring occurrence -/

theorem hasPrefB_iff : ∀ s sub : List Nat, hasPrefB s sub = true ↔ ∃ t, s = sub ++ t
  | _, [] => by simp [hasPrefB]
  | [], y :: ys => by simp [hasPrefB]
  | x :: xs, y :: ys => by
    simp only [hasPrefB, Bool.and_eq_true, beq_iff_eq, hasPrefB_iff xs ys,
      List.cons_append, List.cons.injEq]
    constructor
    · rintro ⟨rfl, t, rfl⟩
      exact ⟨t, rfl, rfl⟩
    · rintro ⟨t, rfl, rfl⟩
      exact ⟨rfl, t, rfl⟩

theorem bytesContains_iff : ∀ s sub : List Nat,
    bytesContains s sub = true ↔ ∃ t u, s = t ++ sub ++ u
  | [], sub => by
    cases sub with
    | nil => exact ⟨fun _ => ⟨[], [], rfl⟩, fun _ => rfl⟩
    | cons y ys =>
      simp [bytesContains, List.isEmpty, eq_comm, List.append_eq_nil]
  | x :: rest, sub => by
    simp only [bytesContains, Bool.or_eq_true, hasPrefB_iff, bytesContains_iff rest sub]
    constructor
    · rintro (⟨t, ht⟩ | ⟨t, u, ht⟩)
      · exact ⟨[], t, ht⟩
      · exact ⟨x :: t, u, by simp [ht]⟩
    · rintro ⟨t, u, h⟩
      cases t with
      | nil =>
        exact Or.inl ⟨u, by simpa using h⟩
      | cons z zs =>
        rw [List.cons_append, List.cons_append, List.cons.injEq] at h
        exact Or.inr ⟨zs, u, by rw [h.2, List.append_assoc]⟩

/-! ### Concrete instances used by the witnesses -/

/-- A signed transaction with one context-free action and one regular
action, used to exercise the full report. -/
def sTxW : SignedTransaction :=
  ⟨⟨"EXP", 7, 255, 4, 5, 6,
    [⟨"cfacct", "cfname", [], .other [9]⟩],
    [⟨"eosio", "setcode", [⟨"alice", "active"⟩], .setCode "eosio" 0 0 [69, 79, 83]⟩]⟩,
   ["SIG1"], [[1, 2]]⟩

/-- A packed transaction with empty context-free data and three bytes of
packed transaction data. -/
def trxW : PackedTransaction := ⟨["SIG1"], [], [1, 2, 3]⟩

/-- Externals where every decode succeeds but unpacking fails. -/
def extW : Ext String :=
  ⟨fun bs => bs, fun bs => "dump of " ++ toString bs.length ++ " bytes",
   fun _ => ("abidoc", none), fun s => ("json of " ++ s, none),
   fun _ => "TRXID", fun sigs => toString sigs, fun _ => Except.error "boom",
   "NOW", "SUB"⟩

/-- Externals where unpacking succeeds, yielding `sTxW`. -/
def extOk : Ext String :=
  ⟨fun bs => bs, fun bs => "dump of " ++ toString bs.length ++ " bytes",
   fun _ => ("abidoc", none), fun s => ("json of " ++ s, none),
   fun _ => "TRXID", fun sigs => toString sigs, fun _ => Except.ok sTxW,
   "NOW", "SUB"⟩

/-- Externals where binary-unmarshalling an ABI blob fails. -/
def extAbiErr : Ext String :=
  ⟨fun bs => bs, fun bs => "dump of " ++ toString bs.length ++ " bytes",
   fun _ => ("", some "err"), fun s => ("json of " ++ s, none),
   fun _ => "TRXID", fun sigs => toString sigs, fun _ => Except.error "boom",
   "NOW", "SUB"⟩

/-- Externals where serializing an ABI to JSON fails. -/
def extJsonErr : Ext String :=
  ⟨fun bs => bs, fun bs => "dump of " ++ toString bs.length ++ " bytes",
   fun _ => ("abidoc", none), fun _ => ("", some "jerr"),
   fun _ => "TRXID", fun sigs => toString sigs, fun _ => Except.error "boom",
   "NOW", "SUB"⟩

/-! ### Claims -/

/-- C1: for every SetABI action whose embedded ABI blob fails to
binary-unmarshal, the analyzer writes an inline error note into the report
and continues the pass: `analyzeAction` returns no error, and a transaction's
remaining actions are analyzed exactly as they would be after a successful
decode — the failure is never propagated as a returned error. -/
theorem setABI_decode_failure_recovers {ABI : Type} (ext : Ext ABI) (a : Analyzer)
    (idx : Nat) (acct nm cacct : String) (auths : List PermissionLevel)
    (blob : List Nat) (e : String) (rest : List Action)
    (h : (ext.unmarshalABI blob).2 = some e) :
    ("Couldn't unpack the ABI therein: " ++ e ++ "\n") ∈
      (analyzeAction ext a idx ⟨acct, nm, auths, .setABI cacct blob⟩).1.writer ∧
    (analyzeAction ext a idx ⟨acct, nm, auths, .setABI cacct blob⟩).2.2 = none ∧
    analyzeActions ext a idx (⟨acct, nm, auths, .setABI cacct blob⟩ :: rest) =
      analyzeActions ext (analyzeAction ext a idx ⟨acct, nm, auths, .setABI cacct blob⟩).1
        (idx + 1) rest := by
  refine ⟨?_, ?_, ?_⟩
  · rw [analyzeAction_eq]
    simp [actionOut, payloadOut, h]
  · rw [analyzeAction_eq]
  · simp only [analyzeActions, analyzeAction_eq]

/-- C1 witness: a concrete SetABI action whose blob fails to unmarshal. -/
theorem setABI_decode_failure_recovers_witness :
    ("Couldn't unpack the ABI therein: " ++ "err" ++ "\n") ∈
      (analyzeAction extAbiErr ⟨false, []⟩ 0
        ⟨"eosio", "setabi", [], .setABI "acct" [1]⟩).1.writer ∧
    (analyzeAction extAbiErr ⟨false, []⟩ 0
        ⟨"eosio", "setabi", [], .setABI "acct" [1]⟩).2.2 = none ∧
    analyzeActions extAbiErr ⟨false, []⟩ 0
        (⟨"eosio", "setabi", [], .setABI "acct" [1]⟩ :: [⟨"x", "y", [], .other []⟩]) =
      analyzeActions extAbiErr
        (analyzeAction extAbiErr ⟨false, []⟩ 0
          ⟨"eosio", "setabi", [], .setABI "acct" [1]⟩).1 1 [⟨"x", "y", [], .other []⟩] :=
  setABI_decode_failure_recovers extAbiErr ⟨false, []⟩ 0 "eosio" "setabi" "acct" [] [1]
    "err" [⟨"x", "y", [], .other []⟩] rfl

/-- C2: when unpacking the packed transaction fails, `AnalyzePacked` stops
and returns the unpack error; its buffer holds only the PACKED TRANSACTION
section and the SIGNED TRANSACTION banner — no TRANSACTION HEADER and no
ACTIONS section follow.  When unpacking succeeds, `AnalyzePacked` returns no
error, so the unpack failure is the only fatal path of the pass. -/
theorem unpack_failure_only_fatal_path {ABI : Type} (ext : Ext ABI) (a : Analyzer)
    (trx : PackedTransaction) :
    (∀ e, ext.unpack trx = Except.error e →
      AnalyzePacked ext a trx =
        ({ a with writer := a.writer ++ packedSectionOut ext a.verbose trx ++
            signedBannerOut }, some e)) ∧
    (∀ sTx, ext.unpack trx = Except.ok sTx → (AnalyzePacked ext a trx).2 = none) := by
  constructor
  · exact fun e h => AnalyzePacked_err ext a trx e h
  · intro sTx h
    rw [AnalyzePacked_ok ext a trx sTx h]

/-- C2 witness: a concrete failing unpack and a concrete succeeding one. -/
theorem unpack_failure_only_fatal_path_witness :
    AnalyzePacked extW ⟨false, []⟩ trxW =
      (⟨false, packedSectionOut extW false trxW ++ signedBannerOut⟩, some "boom") ∧
    (AnalyzePacked extOk ⟨false, []⟩ trxW).2 = none :=
  ⟨(unpack_failure_only_fatal_path extW ⟨false, []⟩ trxW).1 "boom" rfl,
   (unpack_failure_only_fatal_path extOk ⟨false, []⟩ trxW).2 sTxW rfl⟩

/-- C3: the SetCode sub-report prints the hex encoding of the SHA-256 digest
of exactly the code bytes `C` (for every digest function standing in for
`crypto/sha256`), and each "contains" flag renders `bytesContains C marker`,
which is true exactly when the marker occurs contiguously inside `C`. -/
theorem setCode_hash_and_marker_report {ABI : Type} (ext : Ext ABI) (a : Analyzer)
    (idx : Nat) (acct nm cacct : String) (auths : List PermissionLevel)
    (vmT vmV : Nat) (code : List Nat) :
    (analyzeAction ext a idx ⟨acct, nm, auths, .setCode cacct vmT vmV code⟩).1.writer =
      a.writer ++
        [headerLine idx ⟨acct, nm, auths, .setCode cacct vmT vmV code⟩,
         "Set code for account: " ++ cacct ++ "\n",
         "VM type/version: " ++ toString vmT ++ "/" ++ toString vmV ++ "\n",
         "Code's SHA256: " ++ hexEncode (ext.sha256 code) ++ "\n",
         "Contains the string 'SYS': " ++ goBool (bytesContains code sysBytes) ++ "\n",
         "Contains the string 'EOS': " ++ goBool (bytesContains code eosBytes) ++ "\n"] ++
        (if a.verbose then [ext.dump code] else []) ++ ["\n", "\n"] ∧
    (∀ m : List Nat, bytesContains code m = true ↔ ∃ t u, code = t ++ m ++ u) := by
  refine ⟨?_, fun m => bytesContains_iff code m⟩
  rw [analyzeAction_eq]
  simp [actionOut, payloadOut]

/-- C4 counterexample: an action that is neither SetCode nor SetABI, with a
3-byte payload, produces only the bare action-header line — the output
carries no opaque-payload note and in particular never mentions the payload's
byte length (no character `3` occurs anywhere in it). -/
theorem other_action_no_length_note_cex :
    (analyzeAction extW ⟨false, []⟩ 0
        ⟨"someacct", "somename", [], .other [1, 2, 3]⟩).1.writer =
      ["1. Action someacct::somename, authorized by: \n"] ∧
    ('3' ∈ (String.join (analyzeAction extW ⟨false, []⟩ 0
        ⟨"someacct", "somename", [], .other [1, 2, 3]⟩).1.writer).data) = False := by
  constructor
  · rfl
  · simp only [eq_iff_iff, iff_false]
    decide

/-- C4 amended: for every action whose decoded payload is neither SetCode
nor SetABI, `analyzeAction` emits exactly the generic header line (index,
account, name, joined authorizations) and nothing else — no opaque-payload
note, no byte length, and no payload error. -/
theorem other_action_header_only {ABI : Type} (ext : Ext ABI) (a : Analyzer) (idx : Nat)
    (acct nm : String) (auths : List PermissionLevel) (raw : List Nat) :
    analyzeAction ext a idx ⟨acct, nm, auths, .other raw⟩ =
      ({ a with writer := a.writer ++ [headerLine idx ⟨acct, nm, auths, .other raw⟩] },
        ⟨acct, nm, auths, .other raw⟩, none) := by
  rw [analyzeAction_eq]
  simp [actionOut, payloadOut]

/-- C5 counterexample: a SetABI action for account `x` decodes successfully
(the unmarshal returns no error), yet the very next action addressed to `x`
is still emitted as the bare header line — its payload is not decoded with
the just-installed schema, because the analyzer keeps no ABI cache. -/
theorem no_abi_cache_cex :
    (extW.unmarshalABI [7]).2 = none ∧
    (analyzeAction extW
        (analyzeAction extW ⟨false, []⟩ 0 ⟨"eosio", "setabi", [], .setABI "x" [7]⟩).1 1
        ⟨"x", "transfer", [], .other [5, 6]⟩).1.writer =
      (analyzeAction extW ⟨false, []⟩ 0
          ⟨"eosio", "setabi", [], .setABI "x" [7]⟩).1.writer ++
        ["2. Action x::transfer, authorized by: \n"] := by
  exact ⟨rfl, rfl⟩

/-- C5 amended: the analyzer keeps no per-pass ABI cache — the segments an
action contributes to the report depend only on the verbose flag, the
action's index and the action value itself, never on previously analyzed
actions; a decoded SetABI document is rendered in its own sub-report and is
not used to decode any subsequent action's payload. -/
theorem analyzeAction_state_independent {ABI : Type} (ext : Ext ABI) (a1 a2 : Analyzer)
    (idx : Nat) (act : Action) (h : a1.verbose = a2.verbose) :
    (analyzeAction ext a1 idx act).1.writer.drop a1.writer.length =
      (analyzeAction ext a2 idx act).1.writer.drop a2.writer.length := by
  rw [analyzeAction_eq, analyzeAction_eq]
  simp [h, List.drop_left]

/-- C5 amended-claim witness: the action following a SetABI contributes the
same segments as it would with no SetABI analyzed before it. -/
theorem analyzeAction_state_independent_witness :
    (analyzeAction extW
        (analyzeAction extW ⟨false, []⟩ 0 ⟨"eosio", "setabi", [], .setABI "x" [7]⟩).1 1
        ⟨"x", "transfer", [], .other [5, 6]⟩).1.writer.drop
      (analyzeAction extW ⟨false, []⟩ 0
          ⟨"eosio", "setabi", [], .setABI "x" [7]⟩).1.writer.length =
    (analyzeAction extW ⟨false, []⟩ 1
        ⟨"x", "transfer", [], .other [5, 6]⟩).1.writer.drop 0 :=
  analyzeAction_state_independent extW _ ⟨false, []⟩ 1
    ⟨"x", "transfer", [], .other [5, 6]⟩ rfl

/-- C6: on a successful unpack the report is exactly the concatenation, in
order, of the PACKED TRANSACTION section, the SIGNED TRANSACTION banner and
body, the TRANSACTION HEADER section and the ACTIONS section; within the
ACTIONS section (see `actionsSectionOut` and `entriesOut`) every
context-free entry precedes every regular entry, each list in original order
and numbered from 1, each entry headed by `headerLine` showing the index,
account, name and joined actor-at-permission authorizations. -/
theorem report_sections_in_order {ABI : Type} (ext : Ext ABI) (a : Analyzer)
    (trx : PackedTransaction) (sTx : SignedTransaction)
    (h : ext.unpack trx = Except.ok sTx) :
    AnalyzePacked ext a trx =
      ({ a with writer := a.writer ++ packedSectionOut ext a.verbose trx ++
          signedBannerOut ++ signedBodyOut ext a.verbose sTx ++
          hdrSectionOut ext sTx.transaction ++
          actionsSectionOut ext a.verbose sTx.transaction }, none) :=
  AnalyzePacked_ok ext a trx sTx h

/-- C6 witness: the section decomposition at a concrete transaction. -/
theorem report_sections_in_order_witness :
    AnalyzePacked extOk ⟨false, []⟩ trxW =
      (⟨false, packedSectionOut extOk false trxW ++ signedBannerOut ++
          signedBodyOut extOk false sTxW ++ hdrSectionOut extOk sTxW.transaction ++
          actionsSectionOut extOk false sTxW.transaction⟩, none) :=
  report_sections_in_order extOk ⟨false, []⟩ trxW sTxW rfl

theorem payloadOut_dump_irrel {ABI : Type} (ext : Ext ABI) (d : List Nat → String)
    (p : ActionPayload) :
    payloadOut { ext with dump := d } false p = payloadOut ext false p := by
  cases p <;> simp [payloadOut]

theorem entriesOut_dump_irrel {ABI : Type} (ext : Ext ABI) (d : List Nat → String) :
    ∀ (acts : List Action) (idx : Nat),
      entriesOut { ext with dump := d } false idx acts = entriesOut ext false idx acts
  | [], _ => rfl
  | act :: rest, idx => by
    simp [entriesOut, actionOut, payloadOut_dump_irrel,
      entriesOut_dump_irrel ext d rest]

theorem blobsOut_dump_irrel {ABI : Type} (ext : Ext ABI) (d : List Nat → String) :
    ∀ (blobs : List (List Nat)) (idx : Nat),
      blobsOut { ext with dump := d } false idx blobs = blobsOut ext false idx blobs
  | [], _ => rfl
  | blob :: rest, idx => by
    simp [blobsOut, blobsOut_dump_irrel ext d rest]

/-- C7: with the verbose flag off, each verbose-gated helper (`VerbDump`,
`VerbPln`, `VerbPf`) writes nothing to the buffer, and the whole report is
independent of the byte-dump function — so the report contains no raw byte
dumps and (since `VerbPln`/`VerbPf` print nothing) no full ABI JSON text even
when the underlying decodes succeeded. -/
theorem nonverbose_emits_no_dumps {ABI : Type} (ext : Ext ABI) (a : Analyzer)
    (b : List Nat) (s t : String) (d : List Nat → String) (trx : PackedTransaction)
    (h : a.verbose = false) :
    VerbDump ext a b = a ∧ VerbPln a s = a ∧ VerbPf a t = a ∧
    AnalyzePacked { ext with dump := d } a trx = AnalyzePacked ext a trx := by
  refine ⟨by simp [VerbDump, h], by simp [VerbPln, h], by simp [VerbPf, h], ?_⟩
  cases hu : ext.unpack trx with
  | error e =>
    rw [AnalyzePacked_err { ext with dump := d } a trx e hu,
      AnalyzePacked_err ext a trx e hu]
    simp [packedSectionOut, h]
  | ok sTx =>
    rw [AnalyzePacked_ok { ext with dump := d } a trx sTx hu,
      AnalyzePacked_ok ext a trx sTx hu]
    simp [packedSectionOut, signedBodyOut, hdrSectionOut, actionsSectionOut, h,
      blobsOut_dump_irrel, entriesOut_dump_irrel]

/-- C7 witness: the verbose-gated helpers at concrete inputs, and a full
report unchanged under a replaced dump function. -/
theorem nonverbose_emits_no_dumps_witness :
    VerbDump extW ⟨false, ["x"]⟩ [1, 2] = ⟨false, ["x"]⟩ ∧
    VerbPln ⟨false, ["x"]⟩ "s" = ⟨false, ["x"]⟩ ∧
    VerbPf ⟨false, ["x"]⟩ "t" = ⟨false, ["x"]⟩ ∧
    AnalyzePacked { extW with dump := fun _ => "DUMP" } ⟨false, ["x"]⟩ trxW =
      AnalyzePacked extW ⟨false, ["x"]⟩ trxW :=
  nonverbose_emits_no_dumps extW ⟨false, ["x"]⟩ [1, 2] "s" "t" (fun _ => "DUMP") trxW rfl

/-- C8 (against the code): with the verbose flag on, the PACKED TRANSACTION
section dumps `trx.packedContextFreeData` twice — once after the
context-free-data length line and once after the packed-transaction-data
length line — so the packed transaction data bytes are never dumped
(analyzer.go line 44 passes `trx.PackedContextFreeData` again instead of
`trx.PackedTransaction`). -/
theorem verbose_packed_dump_bug {ABI : Type} (ext : Ext ABI) (a : Analyzer)
    (trx : PackedTransaction) (e : String) (hv : a.verbose = true)
    (hu : ext.unpack trx = Except.error e) :
    (AnalyzePacked ext a trx).1.writer =
      a.writer ++
        ["\n", dashLine ++ "\n", packedBanner ++ "\n", dashLine ++ "\n", "\n",
         "Transaction ID: " ++ ext.trxID trx ++ "\n",
         "Signatures: " ++ ext.quoteSigs trx.signatures ++ "\n",
         "Packed context free data length: " ++
           toString trx.packedContextFreeData.length ++ "\n",
         ext.dump trx.packedContextFreeData,
         "Packed transaction data length: " ++
           toString trx.packedTransaction.length ++ "\n",
         ext.dump trx.packedContextFreeData] ++ signedBannerOut := by
  rw [AnalyzePacked_err ext a trx e hu]
  simp [packedSectionOut, hv]

/-- C8 witness: with empty context-free data and three bytes of packed
transaction data, both dumped blobs are the empty context-free data. -/
theorem verbose_packed_dump_bug_witness :
    (AnalyzePacked extW ⟨true, []⟩ trxW).1.writer =
      ["\n", dashLine ++ "\n", packedBanner ++ "\n", dashLine ++ "\n", "\n",
       "Transaction ID: " ++ extW.trxID trxW ++ "\n",
       "Signatures: " ++ extW.quoteSigs trxW.signatures ++ "\n",
       "Packed context free data length: " ++
         toString trxW.packedContextFreeData.length ++ "\n",
       extW.dump trxW.packedContextFreeData,
       "Packed transaction data length: " ++
         toString trxW.packedTransaction.length ++ "\n",
       extW.dump trxW.packedContextFreeData] ++ signedBannerOut ∧
    extW.dump trxW.packedContextFreeData = "dump of 0 bytes" ∧
    extW.dump trxW.packedTransaction = "dump of 3 bytes" :=
  ⟨verbose_packed_dump_bug extW ⟨true, []⟩ trxW "boom" rfl rfl, rfl, rfl⟩

/-- C9: analyzing an action never mutates its input: the action value after
the call (the second component, modelling the pointed-to action) is the
input action unchanged — payload bytes, account, name and authorizations
included — the verbose flag is untouched, and the output buffer is only
appended to. -/
theorem analyzeAction_frame {ABI : Type} (ext : Ext ABI) (a : Analyzer) (idx : Nat)
    (act : Action) :
    (analyzeAction ext a idx act).2.1 = act ∧
    (analyzeAction ext a idx act).1.verbose = a.verbose ∧
    ∃ out, (analyzeAction ext a idx act).1.writer = a.writer ++ out := by
  rw [analyzeAction_eq]
  exact ⟨rfl, rfl, actionOut ext a.verbose idx act, rfl⟩

/-- C10: `analyzeAction` returns no error on any input, hence
`AnalyzeTransaction` and `AnalyzeSignedTransaction` return no error on any
transaction; in particular a failing JSON serialization of a decoded ABI is
printed into the report, not returned. -/
theorem analyzer_never_returns_error {ABI : Type} (ext : Ext ABI) (a : Analyzer)
    (idx : Nat) (act : Action) (tx : Transaction) (sTx : SignedTransaction)
    (acct nm cacct : String) (auths : List PermissionLevel) (blob : List Nat)
    (e : String)
    (hj : (ext.marshalIndent (ext.unmarshalABI blob).1).2 = some e) :
    (analyzeAction ext a idx act).2.2 = none ∧
    (AnalyzeTransaction ext a tx).2 = none ∧
    (AnalyzeSignedTransaction ext a sTx).2 = none ∧
    ("Couldn't serialize ABI into JSON: " ++ e ++ "\n") ∈
      (analyzeAction ext a idx ⟨acct, nm, auths, .setABI cacct blob⟩).1.writer := by
  refine ⟨?_, ?_, ?_, ?_⟩
  · rw [analyzeAction_eq]
  · rw [AnalyzeTransaction_eq]
  · simp [AnalyzeSignedTransaction, AnalyzeTransaction_eq]
  · rw [analyzeAction_eq]
    cases hu : (ext.unmarshalABI blob).2 <;> simp [actionOut, payloadOut, hu, hj]

/-- C10 witness: a concrete failing JSON serialization. -/
theorem analyzer_never_returns_error_witness :
    (analyzeAction extJsonErr ⟨false, []⟩ 0 ⟨"x", "y", [], .other []⟩).2.2 = none ∧
    (AnalyzeTransaction extJsonErr ⟨false, []⟩ sTxW.transaction).2 = none ∧
    (AnalyzeSignedTransaction extJsonErr ⟨false, []⟩ sTxW).2 = none ∧
    ("Couldn't serialize ABI into JSON: " ++ "jerr" ++ "\n") ∈
      (analyzeAction extJsonErr ⟨false, []⟩ 0
          ⟨"eosio", "setabi", [], .setABI "acct" [1]⟩).1.writer :=
  analyzer_never_returns_error extJsonErr ⟨false, []⟩ 0 ⟨"x", "y", [], .other []⟩
    sTxW.transaction sTxW "eosio" "setabi" "acct" [] [1] "jerr" rfl

end Analysis
